import Mathlib

/-
Verification of the junixsocket native capability layer
(`junixsocket-native/src/main/c/capabilities.c`) and of the socket
lifecycle contract declared in
`org_newsclub_net_unix_NativeUnixSocket.h`.

The C function `Java_org_newsclub_net_unix_NativeUnixSocket_capabilities`
is compiled under a fixed set of preprocessor macros; we model one such
compile-time configuration as a record of booleans (one per macro that
the function's preprocessor conditionals test) and embed the function as
a pure Lean function of that configuration.
-/

namespace JUnixSocket

/-- A compile-time platform configuration for `capabilities.c`: each
field records whether the corresponding preprocessor macro is defined
when the translation unit is compiled.  `sunA` stands for the macro
spelled with one trailing underscore pair and `sunB` for the variant
with two (the C code tests both spellings of the Solaris macro). -/
structure PlatformConfig where
  localPeerCred : Bool
  localPeerEPid : Bool
  localPeerEUuid : Bool
  soPeerCred : Bool
  isNetBSD : Bool
  sunA : Bool
  sunB : Bool
  haveAncillary : Bool
  isLinux : Bool
  isWin32 : Bool
deriving DecidableEq

/-- Bit 0, `CAPABILITY_PEER_CREDENTIALS = (1 << 0)` in `capabilities.c`. -/
def CAPABILITY_PEER_CREDENTIALS : Nat := 1 <<< 0

/-- Bit 1, `CAPABILITY_ANCILLARY_MESSAGES = (1 << 1)` in `capabilities.c`. -/
def CAPABILITY_ANCILLARY_MESSAGES : Nat := 1 <<< 1

/-- Bit 2, `CAPABILITY_FILE_DESCRIPTORS = (1 << 2)` in `capabilities.c`. -/
def CAPABILITY_FILE_DESCRIPTORS : Nat := 1 <<< 2

/-- Bit 3, `CAPABILITY_ABSTRACT_NAMESPACE = (1 << 3)` in `capabilities.c`. -/
def CAPABILITY_ABSTRACT_NAMESPACE : Nat := 1 <<< 3

/-- Bit 4, `CAPABILITY_DATAGRAMS = (1 << 4)` in `capabilities.c`. -/
def CAPABILITY_DATAGRAMS : Nat := 1 <<< 4

/-- Bit 5, `CAPABILITY_NATIVE_SOCKETPAIR = (1 << 5)` in `capabilities.c`. -/
def CAPABILITY_NATIVE_SOCKETPAIR : Nat := 1 <<< 5

/-- The body of `Java_org_newsclub_net_unix_NativeUnixSocket_capabilities`
from `capabilities.c`, translated clause by clause: it starts from 0 and
ORs in one capability constant per satisfied preprocessor conditional, in
source order.  The result of each OR stays below 2^31, so the C `int`
arithmetic never overflows and `Nat` is a faithful carrier. -/
def capabilities (conf : PlatformConfig) : Nat :=
  let c0 : Nat := 0
  let c1 : Nat :=
    if conf.localPeerCred || conf.localPeerEPid || conf.localPeerEUuid ||
        conf.soPeerCred || conf.isNetBSD || conf.sunA || conf.sunB then
      c0 ||| CAPABILITY_PEER_CREDENTIALS
    else c0
  let c2 : Nat :=
    if conf.haveAncillary then
      (c1 ||| CAPABILITY_ANCILLARY_MESSAGES) ||| CAPABILITY_FILE_DESCRIPTORS
    else c1
  let c3 : Nat :=
    if conf.isLinux then c2 ||| CAPABILITY_ABSTRACT_NAMESPACE else c2
  let c4 : Nat :=
    if !conf.isWin32 then c3 ||| CAPABILITY_DATAGRAMS else c3
  let c5 : Nat :=
    if !conf.isWin32 then c4 ||| CAPABILITY_NATIVE_SOCKETPAIR else c4
  c5

/-- The JNI entry point as declared: it receives a `JNIEnv *` and a
`jclass`, both marked `CK_UNUSED` and never read by the body, and
returns the computed bitmask as a `jint`.  The two pointer arguments are
modelled as opaque numeric handles. -/
def Java_org_newsclub_net_unix_NativeUnixSocket_capabilities
    (env : Nat) (clazz : Nat) (conf : PlatformConfig) : Int :=
  Int.ofNat (capabilities conf)

/-- The six optional features of the capability contract. -/
inductive Capability
  | peerCredentials
  | ancillaryMessages
  | fileDescriptors
  | abstractNamespace
  | datagrams
  | nativeSocketPair
deriving DecidableEq, Fintype

/-- The fixed bit index assigned to each capability by the wire
contract of spec section 6. -/
def capabilityBit : Capability → Nat
  | .peerCredentials => 0
  | .ancillaryMessages => 1
  | .fileDescriptors => 2
  | .abstractNamespace => 3
  | .datagrams => 4
  | .nativeSocketPair => 5

/-- Spec-side support predicate, following the platform preconditions of
spec section 6 word for word: peer credentials require one of
`LOCAL_PEERCRED`, `LOCAL_PEEREPID`, `LOCAL_PEEREUUID`, `SO_PEERCRED`, or
NetBSD or Solaris; ancillary messages and file-descriptor passing
require the control-message facility; abstract namespace only on Linux;
datagrams and native socketpair everywhere except the one non-POSIX
target (Windows). -/
def specSupports (conf : PlatformConfig) : Capability → Bool
  | .peerCredentials =>
      conf.localPeerCred || conf.localPeerEPid || conf.localPeerEUuid ||
        conf.soPeerCred || conf.isNetBSD || conf.sunA || conf.sunB
  | .ancillaryMessages => conf.haveAncillary
  | .fileDescriptors => conf.haveAncillary
  | .abstractNamespace => conf.isLinux
  | .datagrams => !conf.isWin32
  | .nativeSocketPair => !conf.isWin32

/-- Spec-side bitmask, following the spec's words: the OR of `1 <<< bit`
over exactly the capabilities the platform supports. -/
def specCapabilitiesMask (conf : PlatformConfig) : Nat :=
  (if specSupports conf .peerCredentials then 1 <<< 0 else 0) |||
  (if specSupports conf .ancillaryMessages then 1 <<< 1 else 0) |||
  (if specSupports conf .fileDescriptors then 1 <<< 2 else 0) |||
  (if specSupports conf .abstractNamespace then 1 <<< 3 else 0) |||
  (if specSupports conf .datagrams then 1 <<< 4 else 0) |||
  (if specSupports conf .nativeSocketPair then 1 <<< 5 else 0)

/-- The socket lifecycle states of spec section 4.3. -/
inductive SocketState
  | Unbound
  | Bound
  | Listening
  | Connecting
  | Connected
  | ShutdownRead
  | ShutdownWrite
  | ShutdownBoth
  | Closed
deriving DecidableEq

/-- The error taxonomy of spec section 7 (the kinds the lifecycle
guards can raise). -/
inductive SocketError
  | ClosedHandle
  | InvalidState
deriving DecidableEq

/-- Modelled from the spec: the repository source under `src/` declares
`Java_org_newsclub_net_unix_NativeUnixSocket_write` only in the JNI
header, without its body, so the state guard of `write` is taken from
spec sections 4.3 and 7: `Closed` is absorbing and every operation on
it fails with `ClosedHandle`; `write` is valid only from `Connected`,
and in any other live state it fails with `InvalidState`. -/
def writeGuard (s : SocketState) : Except SocketError Unit :=
  if s = SocketState.Closed then Except.error SocketError.ClosedHandle
  else if s = SocketState.Connected then Except.ok ()
  else Except.error SocketError.InvalidState

/-- Modelled from the spec: the repository source under `src/` declares
`Java_org_newsclub_net_unix_NativeUnixSocket_close` only in the JNI
header, without its body; spec section 4.3 says `close` always succeeds,
releases the descriptor and moves the handle to the terminal `Closed`
state. -/
def closeOp (s : SocketState) : SocketState :=
  SocketState.Closed

end JUnixSocket

namespace JUnixSocket

example : capabilities ⟨false, false, false, false, false, false, false, false, false, false⟩ = 48 := by decide

example : capabilities ⟨false, false, false, true, true, false, false, true, true, false⟩ = 63 := by decide

example : capabilities ⟨false, false, false, false, false, false, false, false, false, true⟩ = 0 := by decide

/-- Exhaustive evaluation of `capabilities` over all 1024 platform
configurations: the result equals the spec-side mask, every bit reads
back the support of its feature, and the value never exceeds 63. -/
lemma capabilities_exhaustive (conf : PlatformConfig) :
    capabilities conf = specCapabilitiesMask conf ∧
      (∀ c : Capability,
        (capabilities conf).testBit (capabilityBit c) = specSupports conf c) ∧
      capabilities conf ≤ 63 := by
  obtain ⟨a, b, c, d, e, f, g, h, i, j⟩ := conf
  cases a <;> cases b <;> cases c <;> cases d <;> cases e <;> cases f <;>
    cases g <;> cases h <;> cases i <;> cases j <;> exact ⟨by decide, by decide, by decide⟩

/-- C1: the bitmask returned by `capabilities` uses the fixed bit
assignments (bit 0 peer credentials, bit 1 ancillary messages, bit 2
file descriptors, bit 3 abstract namespace, bit 4 datagrams, bit 5
native socketpair), and for every platform configuration the result is
exactly the OR of the bits of the supported features: it equals the
spec-side mask, and each bit reads back the support of its feature. -/
theorem capabilities_eq_spec_mask (conf : PlatformConfig) :
    capabilities conf = specCapabilitiesMask conf ∧
      ∀ c : Capability,
        (capabilities conf).testBit (capabilityBit c) = specSupports conf c :=
  ⟨(capabilities_exhaustive conf).1, (capabilities_exhaustive conf).2.1⟩

/-- C2: whenever the `FILE_DESCRIPTORS` bit (bit 2) is set in the result
of `capabilities`, the `ANCILLARY_MESSAGES` bit (bit 1) is set as well. -/
theorem capabilities_fd_implies_ancillary (conf : PlatformConfig)
    (h : (capabilities conf).testBit 2 = true) :
    (capabilities conf).testBit 1 = true := by
  have h1 := (capabilities_exhaustive conf).2.1 Capability.ancillaryMessages
  have h2 := (capabilities_exhaustive conf).2.1 Capability.fileDescriptors
  simp only [capabilityBit, specSupports] at h1 h2
  rw [h1, ← h2, h]

/-- Witness for C2 at a concrete configuration with the control-message
facility present. -/
theorem capabilities_fd_implies_ancillary_witness :
    (capabilities ⟨false, false, false, false, false, false, false, true, false, false⟩).testBit 2 = true ∧
      (capabilities ⟨false, false, false, false, false, false, false, true, false, false⟩).testBit 1 = true :=
  ⟨by decide,
    capabilities_fd_implies_ancillary
      ⟨false, false, false, false, false, false, false, true, false, false⟩ (by decide)⟩

/-- C3: the JNI entry point is deterministic and side-effect-free; it is
a pure function whose result does not depend on the `JNIEnv *` or
`jclass` argument, so for a fixed platform configuration any two calls
return the identical bitmask. -/
theorem capabilities_deterministic (conf : PlatformConfig)
    (env1 clazz1 env2 clazz2 : Nat) :
    Java_org_newsclub_net_unix_NativeUnixSocket_capabilities env1 clazz1 conf =
      Java_org_newsclub_net_unix_NativeUnixSocket_capabilities env2 clazz2 conf :=
  rfl

/-- C4: the `PEER_CREDENTIALS` bit (bit 0) is set iff the platform
defines `LOCAL_PEERCRED`, `LOCAL_PEEREPID`, `LOCAL_PEEREUUID` or
`SO_PEERCRED`, or is NetBSD or Solaris (either spelling of the Solaris
macro). -/
theorem capabilities_peer_credentials_bit (conf : PlatformConfig) :
    (capabilities conf).testBit 0 =
      (conf.localPeerCred || conf.localPeerEPid || conf.localPeerEUuid ||
        conf.soPeerCred || conf.isNetBSD || conf.sunA || conf.sunB) :=
  (capabilities_exhaustive conf).2.1 Capability.peerCredentials

/-- C5: the `ABSTRACT_NAMESPACE` bit (bit 3) is set iff the platform is
Linux; on every non-Linux configuration it is unset. -/
theorem capabilities_abstract_namespace_bit (conf : PlatformConfig) :
    (capabilities conf).testBit 3 = conf.isLinux :=
  (capabilities_exhaustive conf).2.1 Capability.abstractNamespace

/-- C6: the `DATAGRAMS` bit (bit 4) and the `NATIVE_SOCKETPAIR` bit
(bit 5) are each set exactly on the non-Windows configurations; on the
one non-POSIX target (`_WIN32`) both are unset. -/
theorem capabilities_datagrams_socketpair_bits (conf : PlatformConfig) :
    (capabilities conf).testBit 4 = !conf.isWin32 ∧
      (capabilities conf).testBit 5 = !conf.isWin32 :=
  ⟨(capabilities_exhaustive conf).2.1 Capability.datagrams,
    (capabilities_exhaustive conf).2.1 Capability.nativeSocketPair⟩

/-- C7: `capabilities` never fails: on every platform configuration the
JNI entry point totally computes a non-negative integer below 64, and
each bit of that integer reads back exactly the support of its feature,
so an unsupported feature is an unset bit, never an error outcome. -/
theorem capabilities_total_no_error (conf : PlatformConfig)
    (env clazz : Nat) :
    ∃ n : Nat, n ≤ 63 ∧
      Java_org_newsclub_net_unix_NativeUnixSocket_capabilities env clazz conf =
        Int.ofNat n ∧
      ∀ c : Capability, n.testBit (capabilityBit c) = specSupports conf c :=
  ⟨capabilities conf, (capabilities_exhaustive conf).2.2, rfl,
    (capabilities_exhaustive conf).2.1⟩

/-- C9: the value returned by `capabilities` lies between 0 and 63: no
bit above bit 5 is ever set. -/
theorem capabilities_le_63 (conf : PlatformConfig) :
    capabilities conf ≤ 63 :=
  (capabilities_exhaustive conf).2.2

/-- C10: bit 1 (`ANCILLARY_MESSAGES`) and bit 2 (`FILE_DESCRIPTORS`) of
the result of `capabilities` are always equal: both are set by the same
`junixsocket_have_ancillary` conditional. -/
theorem capabilities_ancillary_eq_fd (conf : PlatformConfig) :
    (capabilities conf).testBit 1 = (capabilities conf).testBit 2 := by
  have h1 := (capabilities_exhaustive conf).2.1 Capability.ancillaryMessages
  have h2 := (capabilities_exhaustive conf).2.1 Capability.fileDescriptors
  simp only [capabilityBit, specSupports] at h1 h2
  rw [h1, h2]

/-- C8: issuing `write` on a handle in state `Unbound` fails with
`InvalidState`, and issuing `write` on a handle after `close` has been
invoked on it (from any prior state) fails with `ClosedHandle`. -/
theorem write_unbound_and_after_close :
    writeGuard SocketState.Unbound = Except.error SocketError.InvalidState ∧
      ∀ s : SocketState,
        writeGuard (closeOp s) = Except.error SocketError.ClosedHandle :=
  ⟨rfl, fun _ => rfl⟩

end JUnixSocket
